import Mathlib

/-!
Shallow embedding of the vaultwarden custom-API slice:
src/api/custom.rs (guard, invite_user, get_user_details, exposed) and
src/db/models/report.rs (Report model and its operations).

Conventions of the embedding:
- Timestamps (chrono NaiveDateTime, produced by Utc::now()) are modelled as Nat
  and passed explicitly as a parameter named now.
- Fresh uuids (util::get_uuid) are passed explicitly (a single fresh uuid for
  invite_user; a generator indexed by a save counter for the exposed handler).
- i32 counts are modelled as Int; the handlers do no arithmetic on them beyond
  the comparison with 0 and the clamp, so no overflow can occur.
- The database connection is modelled as an explicit state Db of entity lists;
  a diesel save either succeeds (pure state update) or fails, which is injected
  through an explicit Bool (or an oracle Nat -> Bool for the exposed handler,
  consulted in save-execution order).
- Fallible handlers return results that carry the Db reached at the point of
  failure, since writes already executed before a failing one persist.
-/

namespace VW

/-- Report row (reports table) from src/db/models/report.rs. -/
structure Report where
  uuid : String
  user_uuid : Option String
  org_uuid : Option String
  exposed_count : Int
  created_at : Nat
  last_updated_at : Nat
deriving Repr, DecidableEq

/-- Modelled from the spec: a User is an identity with a unique email and an
opaque uuid (the akey and private key fields play no role in the claims and
are omitted). The User model itself is outside src/. -/
structure User where
  uuid : String
  email : String
deriving Repr, DecidableEq

/-- Modelled from the spec: a Membership links a User to an Organization by
opaque ids. The Membership model itself is outside src/. -/
structure Membership where
  user_uuid : String
  org_uuid : String
deriving Repr, DecidableEq

/-- The durable store (Credential Store): users, memberships, reports, the
pending Invitation rows keyed by email, and dispatched admin-invite mails
(tracked so that notification dispatch is observable in the state). -/
structure Db where
  users : List User
  memberships : List Membership
  reports : List Report
  invitations : List String
  sentMails : List String
deriving Repr, DecidableEq

/-- Service configuration relevant to this slice: the configured
x-vaultwarden-api secret and the mail_enabled flag. -/
structure Config where
  x_vaultwarden_api : Option String
  mail_enabled : Bool
deriving Repr, DecidableEq

/-! ## Report model operations (src/db/models/report.rs) -/

/-- Report::new_personal: user_uuid set, org_uuid null; the submitted count is
stored as given (the constructor performs no clamping). -/
def Report.new_personal (uuid : String) (user_uuid : String) (exposed_count : Int)
    (now : Nat) : Report :=
  { uuid := uuid
    user_uuid := some user_uuid
    org_uuid := none
    exposed_count := exposed_count
    created_at := now
    last_updated_at := now }

/-- Report::new_org: org_uuid set, user_uuid null; the submitted count is
stored as given (the constructor performs no clamping). -/
def Report.new_org (uuid : String) (org_uuid : String) (exposed_count : Int)
    (now : Nat) : Report :=
  { uuid := uuid
    user_uuid := none
    org_uuid := some org_uuid
    exposed_count := exposed_count
    created_at := now
    last_updated_at := now }

/-- Report::find_by_user_personal: first report with this user_uuid and a null
org_uuid. -/
def Report.find_by_user_personal (user_uuid : String) (reports : List Report) :
    Option Report :=
  reports.find? (fun r => r.user_uuid == some user_uuid && r.org_uuid == none)

/-- Report::find_by_org: first report with a null user_uuid and this org_uuid. -/
def Report.find_by_org (org_uuid : String) (reports : List Report) :
    Option Report :=
  reports.find? (fun r => r.user_uuid == none && r.org_uuid == some org_uuid)

/-- Report::update_exposed_count: overwrite the count with the new value
clamped at zero, and refresh last_updated_at. -/
def Report.update_exposed_count (r : Report) (new_count : Int) (now : Nat) :
    Report :=
  { r with
    exposed_count := if new_count < 0 then 0 else new_count
    last_updated_at := now }

/-- Upsert keyed on the primary key uuid, modelling diesel insert_into with
on_conflict(uuid) do_update. -/
def upsertReport (r : Report) (reports : List Report) : List Report :=
  if reports.any (fun x => x.uuid == r.uuid) then
    reports.map (fun x => if x.uuid == r.uuid then r else x)
  else
    reports ++ [r]

/-- Report::save: the diesel upsert either executes atomically or fails with
the error message from map_res; the success of the round trip is injected as
the explicit Bool ok. -/
def Report.save (r : Report) (db : Db) (ok : Bool) : Except String Db :=
  if ok then .ok { db with reports := upsertReport r db.reports }
  else .error "Error saving report"

/-! ## Credential Store lookups used by the handlers (outside src/) -/

/-- Modelled from the spec: Credential Store point lookup of a user by uuid. -/
def User.find_by_uuid (uuid : String) (users : List User) : Option User :=
  users.find? (fun u => u.uuid == uuid)

/-- Modelled from the spec: look up an existing user by exact email match. -/
def User.find_by_mail (email : String) (users : List User) : Option User :=
  users.find? (fun u => u.email == email)

/-- Modelled from the spec: all memberships held by a user. -/
def Membership.find_by_user (user_uuid : String) (ms : List Membership) :
    List Membership :=
  ms.filter (fun m => m.user_uuid == user_uuid)

/-- Modelled from the spec: all memberships in an organization. -/
def Membership.find_by_org (org_uuid : String) (ms : List Membership) :
    List Membership :=
  ms.filter (fun m => m.org_uuid == org_uuid)

/-- Same uuid-keyed upsert shape for the users table. -/
def upsertUser (u : User) (users : List User) : List User :=
  if users.any (fun x => x.uuid == u.uuid) then
    users.map (fun x => if x.uuid == u.uuid then u else x)
  else
    users ++ [u]

/-- Modelled from the spec: User::save persists the user row; success of the
store round trip is injected as the explicit Bool ok. -/
def User.save (u : User) (db : Db) (ok : Bool) : Except String Db :=
  if ok then .ok { db with users := upsertUser u db.users }
  else .error "Error saving user"

/-! ## Static-Secret Guard (VWApi::from_request in src/api/custom.rs) -/

/-- Outcome of the request guard: success, or an error with an HTTP status
code and a message. -/
inductive GuardOutcome where
  | success : GuardOutcome
  | error : Nat → String → GuardOutcome
deriving Repr, DecidableEq

/-- VWApi::from_request: api_key is the x-vaultwarden-api header value
(none when the header is absent), configured is CONFIG.x_vaultwarden_api().
Rust tests !key.is_empty(), embedded as the decidable comparison with "". -/
def from_request (api_key : Option String) (configured : Option String) :
    GuardOutcome :=
  match api_key with
  | some key =>
      if key = "" then
        .error 401 "Missing x-vaultwarden-api header"
      else
        match configured with
        | some expected_key =>
            if key = expected_key then
              .success
            else
              .error 401 "Invalid x-vaultwarden-api"
        | none => .error 500 "x-vaultwarden-api not configured"
  | none => .error 401 "Missing x-vaultwarden-api header"

/-! ## Exposure Aggregator (exposed in src/api/custom.rs) -/

/-- Result of a state-changing step or handler: the reached Db, with the error
message when a save failed (writes made before the failure persist). -/
inductive DbResult where
  | ok : Db → DbResult
  | err : String → Db → DbResult
deriving Repr, DecidableEq

/-- The Db reached by a step, whether it succeeded or failed. -/
def DbResult.db : DbResult → Db
  | .ok d => d
  | .err _ d => d

/-- Step 1 of the exposed handler: find the personal report for the user and
overwrite-or-create it with the submitted me count. The uuid g0 is the fresh
uuid used when a new report is created; ok is the outcome of the save. -/
def personal_step (user_uuid : String) (me : Int) (db : Db) (ok : Bool)
    (g0 : String) (now : Nat) : DbResult :=
  match Report.find_by_user_personal user_uuid db.reports with
  | some existing_report =>
      match Report.save (existing_report.update_exposed_count me now) db ok with
      | .ok db2 => .ok db2
      | .error e => .err e db
  | none =>
      match Report.save (Report.new_personal g0 user_uuid me now) db ok with
      | .ok db2 => .ok db2
      | .error e => .err e db

/-- Step 2 of the exposed handler: the per-organization loop over the submitted
(orgId, count) entries, in iteration order. An entry is skipped (continue)
unless the reporting user holds a membership in that organization. The save
oracle orc and the fresh-uuid generator gen are indexed by the save counter n,
which advances only when a save executes. A failing save aborts the loop. -/
def process_org_entries (user_memberships : List Membership)
    (entries : List (String × Int)) (db : Db) (orc : Nat → Bool)
    (gen : Nat → String) (n : Nat) (now : Nat) : DbResult :=
  match entries with
  | [] => .ok db
  | (org_uuid, exposed_count) :: rest =>
      if user_memberships.any (fun m => m.org_uuid == org_uuid) then
        match Report.find_by_org org_uuid db.reports with
        | some existing_report =>
            match Report.save (existing_report.update_exposed_count exposed_count now)
                db (orc n) with
            | .ok db2 => process_org_entries user_memberships rest db2 orc gen (n + 1) now
            | .error e => .err e db
        | none =>
            match Report.save (Report.new_org (gen n) org_uuid exposed_count now)
                db (orc n) with
            | .ok db2 => process_org_entries user_memberships rest db2 orc gen (n + 1) now
            | .error e => .err e db
      else
        process_org_entries user_memberships rest db orc gen n now

/-- The exposed handler (POST /exposed). Resolve the reporting user; if absent
the whole call is Ok with no state change. Otherwise load the memberships
once, run the personal update (save number 0), then the per-organization loop
(save numbers from 1). The first failing save aborts with its error. -/
def exposed (user_id : String) (org : List (String × Int)) (me : Int) (db : Db)
    (orc : Nat → Bool) (gen : Nat → String) (now : Nat) : DbResult :=
  match User.find_by_uuid user_id db.users with
  | some _ =>
      let user_memberships := Membership.find_by_user user_id db.memberships
      match personal_step user_id me db (orc 0) (gen 0) now with
      | .ok db1 =>
          match process_org_entries user_memberships org db1 orc gen 1 now with
          | .ok db2 => .ok db2
          | .err e db2 => .err e db2
      | .err e db1 => .err e db1
  | none => .ok db

/-- The route for POST /exposed takes no VWApi request guard: the handler runs
on the body alone, whatever the x-vaultwarden-api header holds. -/
def exposed_endpoint (_api_key : Option String) (_cfg : Config)
    (user_id : String) (org : List (String × Int)) (me : Int) (db : Db)
    (orc : Nat → Bool) (gen : Nat → String) (now : Nat) : DbResult :=
  exposed user_id org me db orc gen now

/-! ## Invitation Issuer (invite_user in src/api/custom.rs) -/

/-- Result of the invite handler: the returned userId with the reached Db, or
an HTTP error code and message with the Db reached at the failure. -/
inductive InviteResult where
  | ok : String → Db → InviteResult
  | err : Nat → String → Db → InviteResult
deriving Repr, DecidableEq

/-- The inner _generate_invite: with mail enabled, dispatch the admin-invite
mail for the user (mail transport is outside src/, modelled from the spec as
recording the dispatched address); otherwise persist a pending Invitation row
keyed by the email (Invitation model outside src/, modelled from the spec).
Either step can fail, injected as the explicit Bool ok. -/
def generate_invite (user : User) (cfg : Config) (db : Db) (ok : Bool) :
    Except String Db :=
  if cfg.mail_enabled then
    if ok then .ok { db with sentMails := db.sentMails ++ [user.email] }
    else .error "Error sending admin invite mail"
  else
    if ok then .ok { db with invitations := db.invitations ++ [user.email] }
    else .error "Error saving invitation"

/-- The invite_user handler (POST /invite, behind the VWApi guard). If a user
with the email exists, return its uuid at once with no writes. Otherwise build
the new user (fresh uuid), run _generate_invite, then save the user; either
failure is surfaced with code 500 via with_code. inviteOk and saveOk inject
the success of the two fallible steps. -/
def invite_user (email : String) (cfg : Config) (db : Db) (freshUuid : String)
    (inviteOk : Bool) (saveOk : Bool) : InviteResult :=
  match User.find_by_mail email db.users with
  | some existing_user => .ok existing_user.uuid db
  | none =>
      let user : User := { uuid := freshUuid, email := email }
      match generate_invite user cfg db inviteOk with
      | .ok db1 =>
          match User.save user db1 saveOk with
          | .ok db2 => .ok user.uuid db2
          | .error e => .err 500 e db1
      | .error e => .err 500 e db

/-- POST /invite with its VWApi request guard: the guard is evaluated before
the handler body; a guard failure returns its status with no state change. -/
def invite_endpoint (api_key : Option String) (cfg : Config) (email : String)
    (db : Db) (freshUuid : String) (inviteOk : Bool) (saveOk : Bool) :
    InviteResult :=
  match from_request api_key cfg.x_vaultwarden_api with
  | .success => invite_user email cfg db freshUuid inviteOk saveOk
  | .error code msg => .err code msg db

/-! ## Status Summarizer (get_user_details in src/api/custom.rs) -/

/-- The response body of GET /user/:id/details. last_updated_at is the report
timestamp (rfc3339 rendering of timestamps is not modelled). -/
structure UserDetailsResponse where
  status : String
  org_id : Option String
  members_count : Nat
  exposed_count : Int
  last_updated_at : Option Nat
deriving Repr, DecidableEq

/-- The get_user_details handler: 404 for an unknown user; otherwise status is
Pending exactly when the user has no membership, and the first membership (if
any) supplies the organization whose size and report are reported. -/
def get_user_details (user_id : String) (db : Db) :
    Except (Nat × String) UserDetailsResponse :=
  match User.find_by_uuid user_id db.users with
  | some _ =>
      let memberships := Membership.find_by_user user_id db.memberships
      let status := if memberships.isEmpty then "Pending" else "Active"
      let members_count :=
        match memberships.head? with
        | some membership => (Membership.find_by_org membership.org_uuid db.memberships).length
        | none => 0
      let counts : Int × Option Nat :=
        match memberships.head? with
        | some membership =>
            match Report.find_by_org membership.org_uuid db.reports with
            | some report => (report.exposed_count, some report.last_updated_at)
            | none => (0, none)
        | none => (0, none)
      let org_id := memberships.head?.map (fun m => m.org_uuid)
      .ok { status := status
            org_id := org_id
            members_count := members_count
            exposed_count := counts.1
            last_updated_at := counts.2 }
  | none => .error (404, "User not found")

/-- GET /user/:id/details with its VWApi request guard: the guard is evaluated
before the handler body; a guard failure returns its status. -/
def details_endpoint (api_key : Option String) (cfg : Config) (user_id : String)
    (db : Db) : Except (Nat × String) UserDetailsResponse :=
  match from_request api_key cfg.x_vaultwarden_api with
  | .success => get_user_details user_id db
  | .error code msg => .error (code, msg)

/-! ## Concrete sample state used by witnesses and counterexamples -/

/-- A store holding exactly one user u1 and nothing else. -/
def sampleDb : Db :=
  { users := [{ uuid := "u1", email := "a@x.com" }]
    memberships := []
    reports := []
    invitations := []
    sentMails := [] }

/-! ## Claim C1 -/

/-- Claim C1 as stated is false: a first submission creates the report through
Report::new_personal / Report::new_org, which store the submitted count as
given, with no clamp. Submitting me = -10 for user u1, who has no existing
personal report, stores a personal report whose exposed_count is -10. -/
theorem c1_counterexample :
    exposed "u1" [] (-10) sampleDb (fun _ => true) (fun _ => "r0") 5 =
      DbResult.ok { sampleDb with reports := [Report.new_personal "r0" "u1" (-10) 5] } ∧
    (Report.new_personal "r0" "u1" (-10) 5).exposed_count = -10 ∧
    ¬ (0 : Int) ≤ -10 := by
  refine ⟨by decide, by decide, by decide⟩

/-- Claim C1 (amended): the clamp to zero applies only when an existing report
is updated in place through Report::update_exposed_count; when a new report is
created on the first submission, Report::new_personal and Report::new_org
store the submitted count unchanged, so a negative first submission is stored
negative. -/
theorem c1_theorem : ∀ (r : Report) (c : Int) (t : Nat) (i u o : String),
    0 ≤ (r.update_exposed_count c t).exposed_count ∧
    (Report.new_personal i u c t).exposed_count = c ∧
    (Report.new_org i o c t).exposed_count = c := by
  intro r c t i u o
  refine ⟨?_, rfl, rfl⟩
  simp only [Report.update_exposed_count]
  split <;> omega

/-! ## Claim C4 -/

/-- Claim C4: on an in-place update the stored count equals the newly
submitted value clamped at zero — it does not depend on the previous count
(overwrite, never sum) — and last_updated_at is set to the update time, so it
strictly advances whenever the clock has advanced since the previous write.
At the handler level: when the reporting user exists, already has a personal
report r, and the personal save succeeds, an exposure report with no org
entries replaces r by r.update_exposed_count me now in the store. -/
theorem c4_theorem : ∀ (r : Report) (c : Int) (t : Nat),
    ((r.update_exposed_count c t).exposed_count = if c < 0 then 0 else c) ∧
    ((r.update_exposed_count c t).last_updated_at = t) ∧
    (∀ r2 : Report, (r.update_exposed_count c t).exposed_count =
      (r2.update_exposed_count c t).exposed_count) ∧
    (r.last_updated_at < t → r.last_updated_at < (r.update_exposed_count c t).last_updated_at) ∧
    (∀ (uid : String) (db : Db) (orc : Nat → Bool) (gen : Nat → String) (u : User),
      User.find_by_uuid uid db.users = some u →
      Report.find_by_user_personal uid db.reports = some r →
      orc 0 = true →
      exposed uid [] c db orc gen t =
        DbResult.ok { db with reports := upsertReport (r.update_exposed_count c t) db.reports }) := by
  intro r c t
  refine ⟨rfl, rfl, fun r2 => rfl, fun h => h, ?_⟩
  intro uid db orc gen u hu hpr hok
  simp only [exposed, hu, personal_step, hpr, Report.save, hok, if_true]
  rfl

/-- An existing personal report for user u1: count 7, written at time 2. -/
def c4Report : Report :=
  { uuid := "rp", user_uuid := some "u1", org_uuid := none,
    exposed_count := 7, created_at := 2, last_updated_at := 2 }

/-- A store holding user u1 and its personal report c4Report. -/
def c4Db : Db :=
  { users := [{ uuid := "u1", email := "a@x.com" }]
    memberships := []
    reports := [c4Report]
    invitations := []
    sentMails := [] }

/-- Witness for C4: updating the existing count-7 report with -3 at time 9
stores the clamp (0, not 7 + anything), strictly advances last_updated_at from
2 to 9, and the full exposed call replaces the stored report accordingly. -/
theorem c4_witness :
    ((c4Report.update_exposed_count (-3) 9).exposed_count =
      if (-3 : Int) < 0 then 0 else -3) ∧
    c4Report.last_updated_at < (c4Report.update_exposed_count (-3) 9).last_updated_at ∧
    exposed "u1" [] (-3) c4Db (fun _ => true) (fun _ => "r0") 9 =
      DbResult.ok { c4Db with
        reports := upsertReport (c4Report.update_exposed_count (-3) 9) c4Db.reports } :=
  ⟨(c4_theorem c4Report (-3) 9).1,
   (c4_theorem c4Report (-3) 9).2.2.2.1 (by decide),
   (c4_theorem c4Report (-3) 9).2.2.2.2 "u1" c4Db (fun _ => true) (fun _ => "r0")
     { uuid := "u1", email := "a@x.com" } (by decide) (by decide) rfl⟩

/-! ## Claim C6 -/

/-- Claim C6: the guard decision is the stated total case analysis on the
header value and the configured secret: absent or empty header fails 401
missing; present but nothing configured fails 500 not configured; present but
different from the configured secret (exact, case-sensitive string equality)
fails 401 invalid; exact match succeeds. -/
theorem c6_theorem : ∀ (api_key configured : Option String),
    ((api_key = none ∨ api_key = some "") →
      from_request api_key configured = GuardOutcome.error 401 "Missing x-vaultwarden-api header") ∧
    (∀ k, api_key = some k → k ≠ "" → configured = none →
      from_request api_key configured = GuardOutcome.error 500 "x-vaultwarden-api not configured") ∧
    (∀ k s, api_key = some k → k ≠ "" → configured = some s → k ≠ s →
      from_request api_key configured = GuardOutcome.error 401 "Invalid x-vaultwarden-api") ∧
    (∀ k, api_key = some k → k ≠ "" → configured = some k →
      from_request api_key configured = GuardOutcome.success) := by
  intro api_key configured
  refine ⟨?_, ?_, ?_, ?_⟩
  · rintro (rfl | rfl) <;> simp [from_request]
  · rintro k rfl hk rfl
    simp [from_request, hk]
  · rintro k s rfl hk rfl hks
    simp [from_request, hk, hks]
  · rintro k rfl hk rfl
    simp [from_request, hk]

/-- Witness for C6: the four branches at concrete header and configuration
values. -/
theorem c6_witness :
    from_request none (some "s") = GuardOutcome.error 401 "Missing x-vaultwarden-api header" ∧
    from_request (some "k") none = GuardOutcome.error 500 "x-vaultwarden-api not configured" ∧
    from_request (some "k") (some "s") = GuardOutcome.error 401 "Invalid x-vaultwarden-api" ∧
    from_request (some "s") (some "s") = GuardOutcome.success :=
  ⟨(c6_theorem none (some "s")).1 (Or.inl rfl),
   (c6_theorem (some "k") none).2.1 "k" rfl (by decide) rfl,
   (c6_theorem (some "k") (some "s")).2.2.1 "k" "s" rfl (by decide) rfl (by decide),
   (c6_theorem (some "s") (some "s")).2.2.2 "s" rfl (by decide) rfl⟩

/-! ## Claim C8 -/

/-- Claim C8: an exposure report whose userId resolves to no user returns
success and changes no state: the result is Ok with the store exactly as it
was, for every submitted org map and personal count. -/
theorem c8_theorem : ∀ (user_id : String) (org : List (String × Int)) (me : Int)
    (db : Db) (orc : Nat → Bool) (gen : Nat → String) (now : Nat),
    User.find_by_uuid user_id db.users = none →
    exposed user_id org me db orc gen now = DbResult.ok db := by
  intro user_id org me db orc gen now h
  simp [exposed, h]

/-- Witness for C8: reporting for an unknown user id over the sample store is
Ok and leaves the store untouched. -/
theorem c8_witness :
    exposed "ghost" [("o1", 5)] 3 sampleDb (fun _ => true) (fun _ => "r0") 9 =
      DbResult.ok sampleDb :=
  c8_theorem "ghost" [("o1", 5)] 3 sampleDb (fun _ => true) (fun _ => "r0") 9 (by decide)

/-! ## Claim C3 -/

/-- Unfolding of the per-organization loop on a cons cell. -/
lemma process_org_entries_cons (ms : List Membership) (o : String) (c : Int)
    (rest : List (String × Int)) (db : Db) (orc : Nat → Bool) (gen : Nat → String)
    (n now : Nat) :
    process_org_entries ms ((o, c) :: rest) db orc gen n now =
      if ms.any (fun m => m.org_uuid == o) then
        match Report.find_by_org o db.reports with
        | some existing_report =>
            match Report.save (existing_report.update_exposed_count c now) db (orc n) with
            | .ok db2 => process_org_entries ms rest db2 orc gen (n + 1) now
            | .error e => .err e db
        | none =>
            match Report.save (Report.new_org (gen n) o c now) db (orc n) with
            | .ok db2 => process_org_entries ms rest db2 orc gen (n + 1) now
            | .error e => .err e db
      else
        process_org_entries ms rest db orc gen n now := rfl

/-- Removing an entry whose organization the user is not a member of does not
change the run of the per-organization loop at all: the skip consumes no save,
no fresh uuid, and writes nothing. -/
lemma process_org_entries_skip (ms : List Membership) (o : String) (c : Int)
    (pre post : List (String × Int)) (orc : Nat → Bool) (gen : Nat → String)
    (now : Nat) (h : ms.any (fun m => m.org_uuid == o) = false) :
    ∀ (db : Db) (n : Nat),
    process_org_entries ms (pre ++ (o, c) :: post) db orc gen n now =
      process_org_entries ms (pre ++ post) db orc gen n now := by
  induction pre with
  | nil =>
      intro db n
      simp only [List.nil_append, process_org_entries_cons, h]
      simp
  | cons hd tl ih =>
      intro db n
      obtain ⟨ho, hc⟩ := hd
      simp only [List.cons_append, process_org_entries_cons]
      by_cases hm : ms.any (fun m => m.org_uuid == ho) = true
      · simp only [hm, if_true]
        cases hr : Report.find_by_org ho db.reports with
        | some existing_report =>
            cases hs : Report.save (existing_report.update_exposed_count hc now) db (orc n) with
            | ok db2 => simp only [hs]; exact ih db2 (n + 1)
            | error e => simp only [hs]
        | none =>
            cases hs : Report.save (Report.new_org (gen n) ho hc now) db (orc n) with
            | ok db2 => simp only [hs]; exact ih db2 (n + 1)
            | error e => simp only [hs]
      · simp only [Bool.not_eq_true] at hm
        simp only [hm, if_false]
        exact ih db n

/-- Claim C3: an org-count entry for an organization the reporting user holds
no membership in is skipped silently — the whole exposed call behaves exactly
as if the entry were absent from the submitted map, so that organization's
report is neither created nor modified, the skip is not reported back, and the
personal update and all other entries are processed unchanged. -/
theorem c3_theorem : ∀ (user_id o : String) (c : Int)
    (pre post : List (String × Int)) (me : Int) (db : Db) (orc : Nat → Bool)
    (gen : Nat → String) (now : Nat),
    (Membership.find_by_user user_id db.memberships).any (fun m => m.org_uuid == o) = false →
    exposed user_id (pre ++ (o, c) :: post) me db orc gen now =
      exposed user_id (pre ++ post) me db orc gen now := by
  intro user_id o c pre post me db orc gen now h
  simp only [exposed]
  cases hu : User.find_by_uuid user_id db.users with
  | none => rfl
  | some u =>
      simp only []
      cases hp : personal_step user_id me db (orc 0) (gen 0) now with
      | ok db1 => simp only [process_org_entries_skip _ _ _ _ _ _ _ _ h db1 1]
      | err e db1 => rfl

/-- Witness for C3: user u1 of the sample store holds no membership in o1, so
submitting the entry (o1, 5) behaves exactly like submitting no entry. -/
theorem c3_witness :
    exposed "u1" [("o1", 5)] 3 sampleDb (fun _ => true) (fun _ => "r0") 9 =
      exposed "u1" [] 3 sampleDb (fun _ => true) (fun _ => "r0") 9 :=
  c3_theorem "u1" "o1" 5 [] [] 3 sampleDb (fun _ => true) (fun _ => "r0") 9 (by decide)

/-! ## Claim C10 -/

/-- Claim C10: the handler updates the personal report before any
organizational one and aborts on the first failing save. If the personal save
(save number 0) fails, the whole call fails with that save's error and the
store is exactly as before — no organizational report is touched. If the save
of an authorized organizational entry fails, the loop stops with that error at
the store reached so far, whatever entries remain — they are not processed. -/
theorem c10_theorem :
    (∀ (user_id : String) (org : List (String × Int)) (me : Int) (db : Db)
       (orc : Nat → Bool) (gen : Nat → String) (now : Nat) (u : User),
       User.find_by_uuid user_id db.users = some u → orc 0 = false →
       exposed user_id org me db orc gen now = DbResult.err "Error saving report" db) ∧
    (∀ (ms : List Membership) (o : String) (c : Int) (rest : List (String × Int))
       (db : Db) (orc : Nat → Bool) (gen : Nat → String) (n now : Nat),
       ms.any (fun m => m.org_uuid == o) = true → orc n = false →
       process_org_entries ms ((o, c) :: rest) db orc gen n now =
         DbResult.err "Error saving report" db) := by
  constructor
  · intro user_id org me db orc gen now u hu hfail
    simp only [exposed, hu]
    have hp : personal_step user_id me db (orc 0) (gen 0) now =
        DbResult.err "Error saving report" db := by
      simp only [personal_step, Report.save, hfail, if_false]
      cases Report.find_by_user_personal user_id db.reports <;> rfl
    simp only [hp]
  · intro ms o c rest db orc gen n now hm hfail
    simp only [process_org_entries_cons, hm, if_true, Report.save, hfail, if_false]
    cases Report.find_by_org o db.reports <;> rfl

/-- Witness for C10: over the sample store (user u1, a membership of u1 in o1
added), with an oracle failing every save, the exposed call fails with the
save error and leaves the store unchanged, and the per-organization loop on an
authorized entry fails at once, ignoring the remaining entries. -/
theorem c10_witness :
    exposed "u1" [("o1", 7)] 3 { sampleDb with memberships := [{ user_uuid := "u1", org_uuid := "o1" }] }
        (fun _ => false) (fun _ => "r0") 9 =
      DbResult.err "Error saving report"
        { sampleDb with memberships := [{ user_uuid := "u1", org_uuid := "o1" }] } ∧
    process_org_entries [{ user_uuid := "u1", org_uuid := "o1" }] [("o1", 7), ("o2", 8)]
        sampleDb (fun _ => false) (fun _ => "r0") 1 9 =
      DbResult.err "Error saving report" sampleDb :=
  ⟨c10_theorem.1 "u1" [("o1", 7)] 3
      { sampleDb with memberships := [{ user_uuid := "u1", org_uuid := "o1" }] }
      (fun _ => false) (fun _ => "r0") 9 { uuid := "u1", email := "a@x.com" } (by decide) rfl,
   c10_theorem.2 [{ user_uuid := "u1", org_uuid := "o1" }] "o1" 7 [("o2", 8)]
      sampleDb (fun _ => false) (fun _ => "r0") 1 9 (by decide) rfl⟩

/-! ## Claim C5 -/

/-- Configuration with a configured x-vaultwarden-api secret and mail off. -/
def sampleCfg : Config := { x_vaultwarden_api := some "secret", mail_enabled := false }

/-- Claim C5 as stated is false: the POST /exposed route takes no VWApi
request guard, so a request with no x-vaultwarden-api header at all — on which
the guard would fail 401 — still runs the exposure business logic and writes a
report to the store. -/
theorem c5_counterexample :
    from_request none sampleCfg.x_vaultwarden_api =
      GuardOutcome.error 401 "Missing x-vaultwarden-api header" ∧
    exposed_endpoint none sampleCfg "u1" [] 3 sampleDb (fun _ => true) (fun _ => "r0") 7 =
      DbResult.ok { sampleDb with reports := [Report.new_personal "r0" "u1" 3 7] } ∧
    sampleDb.reports = [] := by
  refine ⟨rfl, by decide, rfl⟩

/-- Claim C5 (amended): the Static-Secret Guard runs first and must succeed
before any business logic for invitation issuance and status summary — a
guard failure short-circuits those requests with the guard's status and no
state change — but the exposure-reporting route takes no guard and runs its
business logic whatever the header holds. -/
theorem c5_theorem : ∀ (api_key : Option String) (cfg : Config) (code : Nat)
    (msg : String) (email user_id : String) (db : Db) (freshUuid : String)
    (inviteOk saveOk : Bool) (org : List (String × Int)) (me : Int)
    (orc : Nat → Bool) (gen : Nat → String) (now : Nat),
    from_request api_key cfg.x_vaultwarden_api = GuardOutcome.error code msg →
    invite_endpoint api_key cfg email db freshUuid inviteOk saveOk =
      InviteResult.err code msg db ∧
    details_endpoint api_key cfg user_id db = Except.error (code, msg) ∧
    exposed_endpoint api_key cfg user_id org me db orc gen now =
      exposed user_id org me db orc gen now := by
  intro api_key cfg code msg email user_id db freshUuid inviteOk saveOk org me orc gen now h
  refine ⟨?_, ?_, rfl⟩
  · simp only [invite_endpoint, h]
  · simp only [details_endpoint, h]

/-- Witness for C5 (amended): with no header against the sample configuration
the guard fails 401 missing, both guarded endpoints short-circuit with that
status and untouched state, and the exposed route ignores the header. -/
theorem c5_witness :
    invite_endpoint none sampleCfg "b@x.com" sampleDb "u9" true true =
      InviteResult.err 401 "Missing x-vaultwarden-api header" sampleDb ∧
    details_endpoint none sampleCfg "u1" sampleDb =
      Except.error (401, "Missing x-vaultwarden-api header") ∧
    exposed_endpoint none sampleCfg "u1" [] 3 sampleDb (fun _ => true) (fun _ => "r0") 7 =
      exposed "u1" [] 3 sampleDb (fun _ => true) (fun _ => "r0") 7 :=
  c5_theorem none sampleCfg 401 "Missing x-vaultwarden-api header" "b@x.com" "u1"
    sampleDb "u9" true true [] 3 (fun _ => true) (fun _ => "r0") 7 rfl

/-! ## Claim C7 -/

/-- Claim C7: for a new email, the notification step (_generate_invite: invite
mail when mail is enabled, pending Invitation row otherwise) runs strictly
before the user row is saved. If the notification step fails the call fails
with a 500 and the store is exactly as before — in particular the user row was
never saved; if the save fails the call fails with a 500 and the users table
is unchanged; and whenever the call succeeds the notification was recorded. -/
theorem c7_theorem : ∀ (email : String) (cfg : Config) (db : Db)
    (freshUuid : String) (saveOk : Bool),
    User.find_by_mail email db.users = none →
    (∃ msg, invite_user email cfg db freshUuid false saveOk =
      InviteResult.err 500 msg db) ∧
    (∃ msg db1, invite_user email cfg db freshUuid true false =
      InviteResult.err 500 msg db1 ∧ db1.users = db.users) ∧
    (∀ uid db2, invite_user email cfg db freshUuid true true = InviteResult.ok uid db2 →
      (if cfg.mail_enabled then db2.sentMails = db.sentMails ++ [email]
       else db2.invitations = db.invitations ++ [email])) := by
  intro email cfg db freshUuid saveOk hnone
  refine ⟨?_, ?_, ?_⟩
  · by_cases hm : cfg.mail_enabled
    · exact ⟨"Error sending admin invite mail", by simp [invite_user, hnone, generate_invite, hm]⟩
    · exact ⟨"Error saving invitation", by simp [invite_user, hnone, generate_invite, hm]⟩
  · by_cases hm : cfg.mail_enabled
    · refine ⟨"Error saving user", { db with sentMails := db.sentMails ++ [email] }, ?_, rfl⟩
      simp [invite_user, hnone, generate_invite, hm, User.save]
    · refine ⟨"Error saving user", { db with invitations := db.invitations ++ [email] }, ?_, rfl⟩
      simp [invite_user, hnone, generate_invite, hm, User.save]
  · intro uid db2 hok
    by_cases hm : cfg.mail_enabled <;>
      simp_all [invite_user, hnone, generate_invite, hm, User.save, upsertUser]
    · rw [← hok.2]
    · rw [← hok.2]

/-- Witness for C7: over the sample store with mail disabled and the new email
b@x.com, a failing notification step aborts with a 500 and an untouched store;
a failing save aborts with a 500 and an unchanged users table; and a fully
successful call records the pending invitation. -/
theorem c7_witness :
    (∃ msg, invite_user "b@x.com" sampleCfg sampleDb "u9" false true =
      InviteResult.err 500 msg sampleDb) ∧
    (∃ msg db1, invite_user "b@x.com" sampleCfg sampleDb "u9" true false =
      InviteResult.err 500 msg db1 ∧ db1.users = sampleDb.users) ∧
    (∀ uid db2, invite_user "b@x.com" sampleCfg sampleDb "u9" true true = InviteResult.ok uid db2 →
      (if sampleCfg.mail_enabled then db2.sentMails = sampleDb.sentMails ++ ["b@x.com"]
       else db2.invitations = sampleDb.invitations ++ ["b@x.com"])) :=
  c7_theorem "b@x.com" sampleCfg sampleDb "u9" true (by decide)

/-! ## Claim C9 -/

/-- Claim C9: the status summary returns 404 for an unknown userId; for an
existing user with no membership it returns status Pending with orgId null,
membersCount 0, exposedCount 0 and lastUpdatedAt null; for an existing user
with at least one membership it returns status Active, the first membership's
organization as orgId, the number of memberships in that organization as
membersCount, and that organization's report — when one exists — supplies
exposedCount and lastUpdatedAt, else 0 and null. -/
theorem c9_theorem : ∀ (user_id : String) (db : Db),
    (User.find_by_uuid user_id db.users = none →
      get_user_details user_id db = Except.error (404, "User not found")) ∧
    (∀ u, User.find_by_uuid user_id db.users = some u →
      Membership.find_by_user user_id db.memberships = [] →
      get_user_details user_id db = Except.ok
        { status := "Pending", org_id := none, members_count := 0,
          exposed_count := 0, last_updated_at := none }) ∧
    (∀ u m ms, User.find_by_uuid user_id db.users = some u →
      Membership.find_by_user user_id db.memberships = m :: ms →
      get_user_details user_id db = Except.ok
        { status := "Active", org_id := some m.org_uuid,
          members_count := (Membership.find_by_org m.org_uuid db.memberships).length,
          exposed_count :=
            match Report.find_by_org m.org_uuid db.reports with
            | some report => report.exposed_count
            | none => 0,
          last_updated_at :=
            match Report.find_by_org m.org_uuid db.reports with
            | some report => some report.last_updated_at
            | none => none }) := by
  intro user_id db
  refine ⟨?_, ?_, ?_⟩
  · intro h
    simp [get_user_details, h]
  · intro u hu hms
    simp [get_user_details, hu, hms]
  · intro u m ms hu hms
    cases hr : Report.find_by_org m.org_uuid db.reports with
    | some report => simp [get_user_details, hu, hms, hr]
    | none => simp [get_user_details, hu, hms, hr]

/-- A store for the status-summary branches: users u1 and u2 are members of
o1, which has a report with count 4 at time 6; user u3 has no membership. -/
def c9Db : Db :=
  { users := [{ uuid := "u1", email := "a@x.com" },
              { uuid := "u2", email := "b@x.com" },
              { uuid := "u3", email := "c@x.com" }]
    memberships := [{ user_uuid := "u1", org_uuid := "o1" },
                    { user_uuid := "u2", org_uuid := "o1" }]
    reports := [{ uuid := "ro1", user_uuid := none, org_uuid := some "o1",
                  exposed_count := 4, created_at := 6, last_updated_at := 6 }]
    invitations := []
    sentMails := [] }

/-- Witness for C9: over a store with users u1 (a member of o1, alongside a
second member u2, and an o1 report with count 4 at time 6) and u3 (no
membership), the summary of a ghost id is 404, the summary of u3 is Pending
with the zero row, and the summary of u1 is Active with orgId o1,
membersCount 2, exposedCount 4 and lastUpdatedAt 6. -/
theorem c9_witness :
    get_user_details "ghost" c9Db = Except.error (404, "User not found") ∧
    get_user_details "u3" c9Db = Except.ok
      { status := "Pending", org_id := none, members_count := 0,
        exposed_count := 0, last_updated_at := none } ∧
    get_user_details "u1" c9Db = Except.ok
      { status := "Active", org_id := some "o1", members_count := 2,
        exposed_count := 4, last_updated_at := some 6 } :=
  ⟨( c9_theorem "ghost" c9Db).1 (by decide),
   ( c9_theorem "u3" c9Db).2.1 { uuid := "u3", email := "c@x.com" } (by decide) (by decide),
   ( c9_theorem "u1" c9Db).2.2 { uuid := "u1", email := "a@x.com" }
     { user_uuid := "u1", org_uuid := "o1" } [] (by decide) (by decide)⟩

/-! ## Claim C2 -/

/-- Claim C2: invite is idempotent on email. When a user with the email
already exists, invite_user returns that user's uuid with the store exactly as
it was — no second user, no notification, no save. Hence, starting from a
store with no user for the email and a fresh uuid, a first successful invite
followed by a second invite of the same email returns the same uuid twice,
changes nothing on the second call, and leaves exactly one user record with
that email. -/
theorem c2_theorem : ∀ (email : String) (cfg : Config) (db : Db)
    (u1 u2 : String) (i1 s1 i2 s2 : Bool),
    (∀ u, User.find_by_mail email db.users = some u →
      invite_user email cfg db u1 i1 s1 = InviteResult.ok u.uuid db) ∧
    (∀ uid db2, User.find_by_mail email db.users = none →
      db.users.any (fun x => x.uuid == u1) = false →
      invite_user email cfg db u1 true true = InviteResult.ok uid db2 →
      invite_user email cfg db2 u2 i2 s2 = InviteResult.ok uid db2 ∧
      (db2.users.filter (fun x => x.email == email)).length = 1) := by
  intro email cfg db u1 u2 i1 s1 i2 s2
  constructor
  · intro u hu
    simp [invite_user, hu]
  · intro uid db2 hnone hfresh hok
    obtain ⟨rec, hrun, hrecusers⟩ :
        ∃ rec, invite_user email cfg db u1 true true = InviteResult.ok u1 rec ∧
          rec.users = db.users ++ [{ uuid := u1, email := email }] := by
      by_cases hm : cfg.mail_enabled
      · refine ⟨{ db with
            users := db.users ++ [{ uuid := u1, email := email }]
            sentMails := db.sentMails ++ [email] }, ?_, rfl⟩
        simp [invite_user, hnone, generate_invite, hm, User.save, upsertUser, hfresh]
      · refine ⟨{ db with
            users := db.users ++ [{ uuid := u1, email := email }]
            invitations := db.invitations ++ [email] }, ?_, rfl⟩
        simp [invite_user, hnone, generate_invite, hm, User.save, upsertUser, hfresh]
    rw [hrun] at hok
    obtain ⟨huid, hdb2⟩ := InviteResult.ok.inj hok
    have hdb2users : db2.users = db.users ++ [{ uuid := u1, email := email }] := by
      rw [← hdb2, hrecusers]
    have hfind2 : User.find_by_mail email db2.users =
        some { uuid := u1, email := email } := by
      rw [hdb2users]
      unfold User.find_by_mail at hnone ⊢
      rw [List.find?_append, hnone]
      simp
    constructor
    · rw [← huid]
      simp [invite_user, hfind2]
    · rw [hdb2users, List.filter_append]
      have hbase : db.users.filter (fun x => x.email == email) = [] := by
        rw [List.filter_eq_nil_iff]
        intro x hx
        unfold User.find_by_mail at hnone
        exact List.find?_eq_none.mp hnone x hx
      simp [hbase]

/-- The store reached after inviting the fresh email b@x.com over the sample
store with mail disabled: the new user u9 appended and its pending invitation
recorded. -/
def c2Db : Db :=
  { users := [{ uuid := "u1", email := "a@x.com" }, { uuid := "u9", email := "b@x.com" }]
    memberships := []
    reports := []
    invitations := ["b@x.com"]
    sentMails := [] }

/-- Witness for C2: over the sample store (holding only u1 with a@x.com),
inviting a@x.com returns u1 with the store untouched; and for the fresh email
b@x.com, a first invite creates u9, a second invite returns u9 again with no
change, and exactly one user record with b@x.com exists. -/
theorem c2_witness :
    invite_user "a@x.com" sampleCfg sampleDb "u9" true true =
      InviteResult.ok "u1" sampleDb ∧
    (invite_user "b@x.com" sampleCfg c2Db "u8" true true =
      InviteResult.ok "u9" c2Db ∧
    (c2Db.users.filter (fun x => x.email == "b@x.com")).length = 1) :=
  ⟨( c2_theorem "a@x.com" sampleCfg sampleDb "u9" "u9" true true true true).1
      { uuid := "u1", email := "a@x.com" } (by decide),
   ( c2_theorem "b@x.com" sampleCfg sampleDb "u9" "u8" true true true true).2
      "u9" c2Db (by decide) (by decide) (by decide)⟩

end VW
